import Mathlib

/-!
Shallow embedding of the creditcoin-py SDK (files `src/creditcoin/utils.py`,
`src/creditcoin/client.py`, `src/creditcoin/credit_contracts.py`,
`src/creditcoin/contract_models.py`, `src/creditcoin/exceptions.py`).

Modelling conventions:
* Python `float` amounts are modelled as exact rationals `ℚ` (the idealized
  decimal arithmetic the code performs on amounts); chain-side raw integers
  are `ℤ`.
* Python `int(x)` (truncation toward zero) is `pyInt`.
* Python exceptions are the inductive `PyExc`; fallible code returns
  `Except PyExc α`.  A `try/except E` block is a `match` that intercepts
  exactly the constructors corresponding to exception class `E`.
* The external substrate client (`substrateinterface`) is an oracle: its
  responses (storage enumerations, storage queries, payment info, submission
  results) are parameters/fields of `ClientEnv` supplied to each operation.
* Python dictionaries from chain storage are records of `Option` fields
  (`none` = key absent); `d['k']` is `dictGet` (raises `KeyError` when
  absent) and `d.get('k', v)` is `Option.getD`.
-/

set_option linter.unusedVariables false

/-- Python exception values, covering the SDK taxonomy of
`exceptions.py` (`NetworkError`, `InvalidAddressError`, `TransactionError`,
`InsufficientBalanceError`, `KeypairError`) together with the built-in
`KeyError` / `ValueError` and the external library's
`SubstrateRequestException`.  `insufficientBalanceError` carries the three
quantities interpolated into the source's f-string message
(available balance, requested amount, fee estimate). -/
inductive PyExc where
  | keyError (key : String)
  | valueError (msg : String)
  | substrateRequestException (msg : String)
  | networkError (msg : String)
  | invalidAddressError (msg : String)
  | transactionError (msg : String)
  | insufficientBalanceError (available requested feeEstimate : ℚ)
  | keypairError (msg : String)
  deriving DecidableEq, Repr

/-- Python `int()` applied to a number: truncation toward zero
(`int(2.7) == 2`, `int(-2.7) == -2`). -/
def pyInt (q : ℚ) : ℤ := if 0 ≤ q then ⌊q⌋ else -⌊-q⌋

/-- `utils.format_amount(amount, decimals=18)`: `amount / (10 ** decimals)`
(utils.py lines 5-7). -/
def format_amount (amount : ℤ) (decimals : ℕ := 18) : ℚ :=
  (amount : ℚ) / 10 ^ decimals

/-- `utils.to_raw_amount(amount, decimals=18)`:
`int(amount * (10 ** decimals))` (utils.py lines 9-11).  The same
expression `int(x * 10**18)` appears inline at every amount conversion in
`credit_contracts.py` and `client.py`. -/
def to_raw_amount (amount : ℚ) (decimals : ℕ := 18) : ℤ :=
  pyInt (amount * 10 ^ decimals)

/-- Rate-percentage to basis points, the inline conversion
`int(terms.interest_rate * 100)` of `create_ask_order` /
`create_bid_order` (credit_contracts.py lines 58 and 118). -/
def rate_to_basis_points (rate : ℚ) : ℤ := pyInt (rate * 100)

/-- Basis points back to a rate percentage, the inline conversion
`float(value['interest_rate']) / 100` of the read path
(credit_contracts.py lines 286, 341, 399). -/
def basis_points_to_rate (bp : ℤ) : ℚ := (bp : ℚ) / 100

/-- `contract_models.OrderType`. -/
inductive OrderType where
  | ask
  | bid
  deriving DecidableEq, Repr

/-- `contract_models.OrderStatus` (values "active", "filled", "cancelled",
"expired"). -/
inductive OrderStatus where
  | active
  | filled
  | cancelled
  | expired
  deriving DecidableEq, BEq, Repr

/-- `contract_models.DealStatus` (values "pending", "completed",
"disputed", "cancelled"). -/
inductive DealStatus where
  | pending
  | completed
  | disputed
  | cancelled
  deriving DecidableEq, BEq, Repr

/-- The wire string of an `OrderStatus` enum member. -/
def orderStatusString : OrderStatus → String
  | .active => "active"
  | .filled => "filled"
  | .cancelled => "cancelled"
  | .expired => "expired"

/-- `OrderStatus(s)` on a string: the enum constructor, which raises
`ValueError` for a string that is not one of the four member values. -/
def parseOrderStatus (s : String) : Except PyExc OrderStatus :=
  if s = "active" then .ok .active
  else if s = "filled" then .ok .filled
  else if s = "cancelled" then .ok .cancelled
  else if s = "expired" then .ok .expired
  else .error (.valueError s)

/-- `DealStatus(s)` on a string, raising `ValueError` off the enum. -/
def parseDealStatus (s : String) : Except PyExc DealStatus :=
  if s = "pending" then .ok .pending
  else if s = "completed" then .ok .completed
  else if s = "disputed" then .ok .disputed
  else if s = "cancelled" then .ok .cancelled
  else .error (.valueError s)

/-- `contract_models.LoanTerms`. -/
structure LoanTerms where
  principal : ℚ
  interest_rate : ℚ
  duration_days : ℤ
  collateral_required : Bool
  collateral_amount : Option ℚ := none
  grace_period_days : ℤ := 0
  late_fee_percentage : ℚ := 0
  deriving DecidableEq, Repr

/-- `contract_models.CreditAskOrder`. -/
structure CreditAskOrder where
  order_id : String
  lender_address : String
  terms : LoanTerms
  expiry_block : ℤ
  status : OrderStatus
  created_block : ℤ
  filled_amount : ℚ := 0
  deriving DecidableEq, Repr

/-- `contract_models.CreditBidOrder`. -/
structure CreditBidOrder where
  order_id : String
  borrower_address : String
  terms : LoanTerms
  expiry_block : ℤ
  status : OrderStatus
  created_block : ℤ
  filled_amount : ℚ := 0
  deriving DecidableEq, Repr

/-- `contract_models.CreditDeal`. -/
structure CreditDeal where
  deal_id : String
  ask_order_id : String
  bid_order_id : String
  lender_address : String
  borrower_address : String
  terms : LoanTerms
  amount : ℚ
  status : DealStatus
  created_block : ℤ
  start_block : Option ℤ := none
  end_block : Option ℤ := none
  repaid_amount : ℚ := 0
  deriving DecidableEq, Repr

/-- Modelled from the spec: `models.TokenBalance`, the balance record
returned by `client.get_balance`.  The dataclass itself is absent from the
snapshot's `models.py` (it is imported from `.models` by `client.py`); its
fields are taken from the constructor calls in `get_balance` /
`get_balances_bulk` and from spec section 4.4. -/
structure TokenBalance where
  symbol : String
  balance : ℚ
  locked : ℚ
  reserved : ℚ
  total : ℚ
  decimals : ℤ
  deriving DecidableEq, Repr

/-- Modelled from the spec: `models.TransactionReceipt` (absent from the
snapshot's `models.py`); fields taken from the constructor calls in
`client.transfer` and `credit_contracts._create_transaction_receipt` and
from spec section 3. -/
structure TransactionReceipt where
  tx_hash : String
  block_hash : String
  block_number : ℤ
  status : String
  events : List String
  fee : ℚ
  timestamp : ℤ
  deriving DecidableEq, Repr

/-- Modelled from the spec: `models.Keypair` (the SDK-level keypair record,
absent from the snapshot's `models.py`); fields taken from the constructor
calls in `AccountManager` and spec section 3. -/
structure SDKKeypair where
  mnemonic : String
  private_key : List ℕ
  public_key : List ℕ
  address : String
  ss58_format : ℤ
  deriving DecidableEq, Repr

/-- Dictionary lookup `d['key']`: `KeyError` when the key is absent. -/
def dictGet (key : String) (o : Option α) : Except PyExc α :=
  match o with
  | some a => .ok a
  | none => .error (.keyError key)

/-- Raw chain-storage value of one `AskOrders` entry, as the dictionary
read by `get_ask_orders` (credit_contracts.py lines 281-295): each field
`none` models an absent key. -/
structure RawAskValue where
  lender : Option String := none
  principal : Option ℤ := none
  interest_rate : Option ℤ := none
  duration : Option ℤ := none
  collateral_required : Option Bool := none
  collateral_amount : Option ℤ := none
  expiry : Option ℤ := none
  status : Option String := none
  created_block : Option ℤ := none
  filled_amount : Option ℤ := none
  deriving DecidableEq, Repr

/-- Raw chain-storage value of one `BidOrders` entry
(credit_contracts.py lines 336-350). -/
structure RawBidValue where
  borrower : Option String := none
  principal : Option ℤ := none
  interest_rate : Option ℤ := none
  duration : Option ℤ := none
  collateral_required : Option Bool := none
  collateral_amount : Option ℤ := none
  expiry : Option ℤ := none
  status : Option String := none
  created_block : Option ℤ := none
  filled_amount : Option ℤ := none
  deriving DecidableEq, Repr

/-- Raw chain-storage value of one `Deals` entry
(credit_contracts.py lines 391-410). -/
structure RawDealValue where
  ask_order_id : Option String := none
  bid_order_id : Option String := none
  lender : Option String := none
  borrower : Option String := none
  principal : Option ℤ := none
  interest_rate : Option ℤ := none
  duration : Option ℤ := none
  collateral_required : Option Bool := none
  collateral_amount : Option ℤ := none
  amount : Option ℤ := none
  status : Option String := none
  created_block : Option ℤ := none
  start_block : Option ℤ := none
  end_block : Option ℤ := none
  repaid_amount : Option ℤ := none
  deriving DecidableEq, Repr

/-- Decoding of one raw `AskOrders` entry into a `CreditAskOrder`: the
`order_data` dictionary literal of `get_ask_orders` followed by
`CreditAskOrder.from_json` (credit_contracts.py lines 281-297).  Field
accesses occur in the dictionary-literal order; a missing required field
raises `KeyError`, an off-enum status string raises `ValueError`;
`collateral_amount` and `filled_amount` use `.get(..., 0)` defaults.
None of these exceptions is caught inside `get_ask_orders`. -/
def decodeAskOrder (key : String) (v : RawAskValue) :
    Except PyExc CreditAskOrder := do
  let lender ← dictGet "lender" v.lender
  let principal ← dictGet "principal" v.principal
  let rate ← dictGet "interest_rate" v.interest_rate
  let duration ← dictGet "duration" v.duration
  let collateral_required ← dictGet "collateral_required" v.collateral_required
  let collateral_amount := v.collateral_amount.getD 0
  let expiry ← dictGet "expiry" v.expiry
  let statusStr ← dictGet "status" v.status
  let status ← parseOrderStatus statusStr
  let created ← dictGet "created_block" v.created_block
  let filled := v.filled_amount.getD 0
  pure { order_id := key
         lender_address := lender
         terms := { principal := (principal : ℚ) / 10 ^ 18
                    interest_rate := (rate : ℚ) / 100
                    duration_days := duration
                    collateral_required := collateral_required
                    collateral_amount := some ((collateral_amount : ℚ) / 10 ^ 18)
                    grace_period_days := 0
                    late_fee_percentage := 0 }
         expiry_block := expiry
         status := status
         created_block := created
         filled_amount := (filled : ℚ) / 10 ^ 18 }

/-- Decoding of one raw `BidOrders` entry (credit_contracts.py
lines 336-352), symmetric to `decodeAskOrder` with the borrower field. -/
def decodeBidOrder (key : String) (v : RawBidValue) :
    Except PyExc CreditBidOrder := do
  let borrower ← dictGet "borrower" v.borrower
  let principal ← dictGet "principal" v.principal
  let rate ← dictGet "interest_rate" v.interest_rate
  let duration ← dictGet "duration" v.duration
  let collateral_required ← dictGet "collateral_required" v.collateral_required
  let collateral_amount := v.collateral_amount.getD 0
  let expiry ← dictGet "expiry" v.expiry
  let statusStr ← dictGet "status" v.status
  let status ← parseOrderStatus statusStr
  let created ← dictGet "created_block" v.created_block
  let filled := v.filled_amount.getD 0
  pure { order_id := key
         borrower_address := borrower
         terms := { principal := (principal : ℚ) / 10 ^ 18
                    interest_rate := (rate : ℚ) / 100
                    duration_days := duration
                    collateral_required := collateral_required
                    collateral_amount := some ((collateral_amount : ℚ) / 10 ^ 18)
                    grace_period_days := 0
                    late_fee_percentage := 0 }
         expiry_block := expiry
         status := status
         created_block := created
         filled_amount := (filled : ℚ) / 10 ^ 18 }

/-- Decoding of one raw `Deals` entry (credit_contracts.py
lines 391-412): required fields raise `KeyError` when absent, the status
string goes through `DealStatus(...)`, and `start_block` / `end_block` /
`repaid_amount` / `collateral_amount` use `.get` defaults. -/
def decodeDeal (key : String) (v : RawDealValue) :
    Except PyExc CreditDeal := do
  let askId ← dictGet "ask_order_id" v.ask_order_id
  let bidId ← dictGet "bid_order_id" v.bid_order_id
  let lender ← dictGet "lender" v.lender
  let borrower ← dictGet "borrower" v.borrower
  let principal ← dictGet "principal" v.principal
  let rate ← dictGet "interest_rate" v.interest_rate
  let duration ← dictGet "duration" v.duration
  let collateral_required ← dictGet "collateral_required" v.collateral_required
  let collateral_amount := v.collateral_amount.getD 0
  let amount ← dictGet "amount" v.amount
  let statusStr ← dictGet "status" v.status
  let status ← parseDealStatus statusStr
  let created ← dictGet "created_block" v.created_block
  let repaid := v.repaid_amount.getD 0
  pure { deal_id := key
         ask_order_id := askId
         bid_order_id := bidId
         lender_address := lender
         borrower_address := borrower
         terms := { principal := (principal : ℚ) / 10 ^ 18
                    interest_rate := (rate : ℚ) / 100
                    duration_days := duration
                    collateral_required := collateral_required
                    collateral_amount := some ((collateral_amount : ℚ) / 10 ^ 18)
                    grace_period_days := 0
                    late_fee_percentage := 0 }
         amount := (amount : ℚ) / 10 ^ 18
         status := status
         created_block := created
         start_block := v.start_block
         end_block := v.end_block
         repaid_amount := (repaid : ℚ) / 10 ^ 18 }

/-- The filter step of `get_ask_orders` (credit_contracts.py lines
300-303): `if lender_address and order.lender_address != lender_address:
continue` then `if status and order.status != status: continue`.  Python
truthiness: a `None` or empty-string `lender_address` disables the address
filter; an `OrderStatus` member is always truthy. -/
def keepAskOrder (lender_address : Option String) (status : Option OrderStatus)
    (o : CreditAskOrder) : Bool :=
  (match lender_address with
   | none => true
   | some a => a == "" || o.lender_address == a) &&
  (match status with
   | none => true
   | some s => o.status == s)

/-- The filter step of `get_bid_orders` (credit_contracts.py lines
355-358). -/
def keepBidOrder (borrower_address : Option String) (status : Option OrderStatus)
    (o : CreditBidOrder) : Bool :=
  (match borrower_address with
   | none => true
   | some a => a == "" || o.borrower_address == a) &&
  (match status with
   | none => true
   | some s => o.status == s)

/-- The filter step of `get_credit_deals` (credit_contracts.py lines
415-420): the participant filter skips only when the address is truthy and
matches neither the lender nor the borrower. -/
def keepDeal (participant_address : Option String) (status : Option DealStatus)
    (d : CreditDeal) : Bool :=
  (match participant_address with
   | none => true
   | some a => a == "" || d.lender_address == a || d.borrower_address == a) &&
  (match status with
   | none => true
   | some s => d.status == s)

/-- The `for key, value in query_map(...)` loop body of `get_ask_orders`:
decode each entry, apply the filters, accumulate.  A decode exception
propagates (there is no per-entry handler in the source), discarding the
orders accumulated so far. -/
def askOrdersLoop (lender_address : Option String) (status : Option OrderStatus) :
    List (String × RawAskValue) → Except PyExc (List CreditAskOrder)
  | [] => .ok []
  | (k, v) :: rest => do
    let o ← decodeAskOrder k v
    let tail ← askOrdersLoop lender_address status rest
    pure (if keepAskOrder lender_address status o then o :: tail else tail)

/-- The enumeration loop of `get_bid_orders`. -/
def bidOrdersLoop (borrower_address : Option String) (status : Option OrderStatus) :
    List (String × RawBidValue) → Except PyExc (List CreditBidOrder)
  | [] => .ok []
  | (k, v) :: rest => do
    let o ← decodeBidOrder k v
    let tail ← bidOrdersLoop borrower_address status rest
    pure (if keepBidOrder borrower_address status o then o :: tail else tail)

/-- The enumeration loop of `get_credit_deals`. -/
def dealsLoop (participant_address : Option String) (status : Option DealStatus) :
    List (String × RawDealValue) → Except PyExc (List CreditDeal)
  | [] => .ok []
  | (k, v) :: rest => do
    let d ← decodeDeal k v
    let tail ← dealsLoop participant_address status rest
    pure (if keepDeal participant_address status d then d :: tail else tail)

/-- The `except SubstrateRequestException` handler shared by the three
read methods (credit_contracts.py lines 309-311, 364-366, 426-428): it
intercepts exactly `SubstrateRequestException`, logs, and returns the
empty list; every other exception propagates. -/
def catchSubstrateEmpty (x : Except PyExc (List α)) : Except PyExc (List α) :=
  match x with
  | .error (.substrateRequestException _) => .ok []
  | other => other

/-- `CreditContractManager.get_ask_orders` (credit_contracts.py lines
257-311).  `enum` is the substrate oracle's response to the
`AskOrders` storage enumeration: either the list of `(key, value)` pairs
or a raised `SubstrateRequestException`. -/
def get_ask_orders (enum : Except PyExc (List (String × RawAskValue)))
    (lender_address : Option String := none)
    (status : Option OrderStatus := none) :
    Except PyExc (List CreditAskOrder) :=
  catchSubstrateEmpty (enum.bind (askOrdersLoop lender_address status))

/-- `CreditContractManager.get_bid_orders` (credit_contracts.py lines
313-366). -/
def get_bid_orders (enum : Except PyExc (List (String × RawBidValue)))
    (borrower_address : Option String := none)
    (status : Option OrderStatus := none) :
    Except PyExc (List CreditBidOrder) :=
  catchSubstrateEmpty (enum.bind (bidOrdersLoop borrower_address status))

/-- `CreditContractManager.get_credit_deals` (credit_contracts.py lines
368-428). -/
def get_credit_deals (enum : Except PyExc (List (String × RawDealValue)))
    (participant_address : Option String := none)
    (status : Option DealStatus := none) :
    Except PyExc (List CreditDeal) :=
  catchSubstrateEmpty (enum.bind (dealsLoop participant_address status))

/-- A value placed in `call_params` of a composed call. -/
inductive CallValue where
  | int (z : ℤ)
  | bool (b : Bool)
  | str (s : String)
  deriving DecidableEq, Repr

/-- A composed substrate call (`compose_call(call_module, call_function,
call_params)`). -/
structure ComposedCall where
  call_module : String
  call_function : String
  call_params : List (String × CallValue)
  deriving DecidableEq, Repr

/-- Outcome of `create_signed_extrinsic` + `submit_extrinsic` for one
composed call: either a result object (`extrinsic_hash`, `block_hash`,
`block_number`, `is_success`, `error_message`) or a raised exception. -/
inductive SubmitOutcome where
  | included (extrinsic_hash block_hash : String) (block_number : ℤ)
      (is_success : Bool) (error_message : String)
  | raises (e : PyExc)
  deriving DecidableEq, Repr

/-- Raw `System.Account` storage data (`account_info.value['data']`) with
the four balance components read by `get_balance`. -/
structure AccountData where
  free : ℤ
  reserved : ℤ
  misc_frozen : ℤ
  fee_frozen : ℤ
  deriving DecidableEq, Repr

/-- Oracle for the external substrate client and keypair library: the
responses the SDK receives for each delegated operation.  `query_map`
responses are passed separately to the read-path functions. -/
structure ClientEnv where
  validateAddress : String → Bool
  accountQuery : String → Except PyExc (Option AccountData)
  feePaymentInfo : Except PyExc (Option (List (String × ℤ)))
  submitOutcome : ComposedCall → SubmitOutcome
  events : List String
  receiptPaymentInfo : Option (List (String × ℤ))
  blockTimestamp : ℤ

/-- The fee extraction `float(payment_info['partialFee']) / 10**18 if
payment_info else fallback` shared by `_create_transaction_receipt`
(fallback 0, credit_contracts.py line 436) and `transfer` (fallback
`fee_estimate`, client.py line 455).  A truthy payment-info dictionary
lacking the key raises `KeyError`. -/
def paymentFeeOr (paymentInfo : Option (List (String × ℤ))) (fallback : ℚ) :
    Except PyExc ℚ :=
  match paymentInfo with
  | none => .ok fallback
  | some l =>
    if l.isEmpty then .ok fallback
    else
      match List.lookup "partialFee" l with
      | some v => .ok ((v : ℚ) / 10 ^ 18)
      | none => .error (.keyError "partialFee")

/-- `CreditContractManager._create_transaction_receipt`
(credit_contracts.py lines 430-446), for a result included in a block. -/
def mkCreditReceipt (env : ClientEnv) (extrinsic_hash block_hash : String)
    (block_number : ℤ) : Except PyExc TransactionReceipt := do
  let fee ← paymentFeeOr env.receiptPaymentInfo 0
  pure { tx_hash := extrinsic_hash
         block_hash := block_hash
         block_number := block_number
         status := "success"
         events := env.events
         fee := fee
         timestamp := env.blockTimestamp }

/-- The shared submission protocol of the four write operations of
`credit_contracts.py`: submit, then on `is_success` build the receipt,
else raise `TransactionError(failMsgStart + result.error_message)`; a
`SubstrateRequestException` raised anywhere inside the `try` is converted
to `TransactionError(failMsgStart + str(e))`; any other exception
propagates unchanged. -/
def runWriteCall (failMsgStart : String) (env : ClientEnv)
    (call : ComposedCall) : Except PyExc TransactionReceipt :=
  match env.submitOutcome call with
  | .raises e =>
    match e with
    | .substrateRequestException m => .error (.transactionError (failMsgStart ++ m))
    | other => .error other
  | .included h bh bn isSuccess errMsg =>
    if isSuccess then mkCreditReceipt env h bh bn
    else .error (.transactionError (failMsgStart ++ errMsg))

/-- The `call_params` dictionary of `create_ask_order` / `create_bid_order`
(credit_contracts.py lines 56-65 and 116-125): principal and (when
`collateral_required and terms.collateral_amount` is truthy) the
collateral amount go through `int(x * 10**18)`, the interest rate through
`int(rate * 100)`. -/
def orderCallParams (terms : LoanTerms) (expiry_blocks : ℤ) :
    List (String × CallValue) :=
  [("principal", .int (to_raw_amount terms.principal 18)),
   ("interest_rate", .int (rate_to_basis_points terms.interest_rate)),
   ("duration", .int terms.duration_days),
   ("collateral_required", .bool terms.collateral_required),
   ("expiry", .int expiry_blocks)] ++
  (match terms.collateral_required, terms.collateral_amount with
   | true, some c =>
     if c ≠ 0 then [("collateral_amount", .int (to_raw_amount c 18))] else []
   | _, _ => [])

/-- `CreditContractManager.create_ask_order` (credit_contracts.py lines
30-89), modelled at the default `wait_for_inclusion=True`. -/
def create_ask_order (env : ClientEnv) (keypair : SDKKeypair)
    (terms : LoanTerms) (expiry_blocks : ℤ := 14400) :
    Except PyExc TransactionReceipt :=
  runWriteCall "Ask order creation failed: " env
    { call_module := "Credit"
      call_function := "create_ask_order"
      call_params := orderCallParams terms expiry_blocks }

/-- `CreditContractManager.create_bid_order` (credit_contracts.py lines
91-149). -/
def create_bid_order (env : ClientEnv) (keypair : SDKKeypair)
    (terms : LoanTerms) (expiry_blocks : ℤ := 14400) :
    Except PyExc TransactionReceipt :=
  runWriteCall "Bid order creation failed: " env
    { call_module := "Credit"
      call_function := "create_bid_order"
      call_params := orderCallParams terms expiry_blocks }

/-- `CreditContractManager.accept_offer` (credit_contracts.py lines
151-203): dispatches to `accept_ask_order` / `accept_bid_order` by order
type. -/
def accept_offer (env : ClientEnv) (keypair : SDKKeypair) (order_id : String)
    (order_type : OrderType) : Except PyExc TransactionReceipt :=
  runWriteCall "Offer acceptance failed: " env
    { call_module := "Credit"
      call_function :=
        match order_type with
        | .ask => "accept_ask_order"
        | .bid => "accept_bid_order"
      call_params := [("order_id", .str order_id)] }

/-- `CreditContractManager.repay_loan` (credit_contracts.py lines
205-255). -/
def repay_loan (env : ClientEnv) (keypair : SDKKeypair) (deal_id : String)
    (amount : ℚ) : Except PyExc TransactionReceipt :=
  runWriteCall "Loan repayment failed: " env
    { call_module := "Credit"
      call_function := "repay_loan"
      call_params := [("deal_id", .str deal_id),
                      ("amount", .int (to_raw_amount amount 18))] }

/-- `CreditScanClient.get_balance` (client.py lines 239-289): validate the
address (`InvalidAddressError` when invalid), query `System.Account`; a
falsy query result yields the all-zero CTC balance; a
`SubstrateRequestException` becomes `NetworkError`; field arithmetic is
`free`, `misc_frozen + fee_frozen`, `reserved`, `free + reserved`, each
component scaled by `10^-18`. -/
def get_balance (env : ClientEnv) (address : String) :
    Except PyExc TokenBalance :=
  if env.validateAddress address then
    match env.accountQuery address with
    | .error (.substrateRequestException m) =>
      .error (.networkError ("Failed to get balance: " ++ m))
    | .error e => .error e
    | .ok none =>
      .ok { symbol := "CTC", balance := 0, locked := 0, reserved := 0,
            total := 0, decimals := 18 }
    | .ok (some d) =>
      let free := (d.free : ℚ) / 10 ^ 18
      let reservedAmt := (d.reserved : ℚ) / 10 ^ 18
      let miscFrozen := (d.misc_frozen : ℚ) / 10 ^ 18
      let feeFrozen := (d.fee_frozen : ℚ) / 10 ^ 18
      .ok { symbol := "CTC"
            balance := free
            locked := miscFrozen + feeFrozen
            reserved := reservedAmt
            total := free + reservedAmt
            decimals := 18 }
  else .error (.invalidAddressError address)

/-- The `call_params` of the `Balances.transfer_keep_alive` call
(client.py lines 374-377 and 432-435). -/
def transferCallParams (to_address : String) (amount : ℚ) :
    List (String × CallValue) :=
  [("dest", .str to_address), ("value", .int (to_raw_amount amount 18))]

/-- `CreditScanClient.get_transfer_fee_estimate` (client.py lines
351-389): on a payment-info response carrying `partialFee` return it
scaled by `10^-18`; when the response is falsy or lacks the key, or when
any step of the `try` raises (`except Exception`), return the fixed
fallback `0.01`.  Total: no exception reaches the caller. -/
def get_transfer_fee_estimate (env : ClientEnv)
    (from_address to_address : String) (amount : ℚ) : ℚ :=
  match env.feePaymentInfo with
  | .error _ => 1 / 100
  | .ok none => 1 / 100
  | .ok (some l) =>
    if l.isEmpty then 1 / 100
    else
      match List.lookup "partialFee" l with
      | some v => (v : ℚ) / 10 ^ 18
      | none => 1 / 100

/-- `CreditScanClient.transfer` (client.py lines 391-470).  The second
component counts how many times control reaches the sign-and-submit block
(0 or 1): the claim-relevant observable that no extrinsic is signed or
submitted.  Order of effects: validate destination, query the sender's
balance, estimate the fee, gate on
`balance.balance < amount + fee_estimate`
(`InsufficientBalanceError`), then sign and submit. -/
def transfer (env : ClientEnv) (keypair : SDKKeypair) (to_address : String)
    (amount : ℚ) : Except PyExc TransactionReceipt × ℕ :=
  if env.validateAddress to_address then
    match get_balance env keypair.address with
    | .error e => (.error e, 0)
    | .ok bal =>
      let fee_estimate := get_transfer_fee_estimate env keypair.address to_address amount
      if bal.balance < amount + fee_estimate then
        (.error (.insufficientBalanceError bal.balance amount fee_estimate), 0)
      else
        let call : ComposedCall :=
          { call_module := "Balances"
            call_function := "transfer_keep_alive"
            call_params := transferCallParams to_address amount }
        match env.submitOutcome call with
        | .raises e =>
          match e with
          | .substrateRequestException m =>
            (.error (.transactionError ("Transfer failed: " ++ m)), 1)
          | other => (.error other, 1)
        | .included h bh bn isSuccess errMsg =>
          if isSuccess then
            match paymentFeeOr env.receiptPaymentInfo fee_estimate with
            | .error e => (.error e, 1)
            | .ok fee =>
              (.ok { tx_hash := h
                     block_hash := bh
                     block_number := bn
                     status := "success"
                     events := env.events
                     fee := fee
                     timestamp := env.blockTimestamp }, 1)
          else (.error (.transactionError ("Transaction failed: " ++ errMsg)), 1)
  else (.error (.invalidAddressError to_address), 0)

/-- A well-formed `AskOrders` storage record: every required field present
and the status a genuine `OrderStatus` value.  Used to build the valid
entries of the theorems below. -/
structure AskRecord where
  lender : String
  principal : ℤ
  interest_rate : ℤ
  duration : ℤ
  collateral_required : Bool
  collateral_amount : Option ℤ := none
  expiry : ℤ
  status : OrderStatus
  created_block : ℤ
  filled_amount : Option ℤ := none
  deriving DecidableEq, Repr

/-- The raw dictionary a well-formed record presents to the decoder. -/
def encodeAskRecord (r : AskRecord) : RawAskValue :=
  { lender := some r.lender
    principal := some r.principal
    interest_rate := some r.interest_rate
    duration := some r.duration
    collateral_required := some r.collateral_required
    collateral_amount := r.collateral_amount
    expiry := some r.expiry
    status := some (orderStatusString r.status)
    created_block := some r.created_block
    filled_amount := r.filled_amount }

/-- The `CreditAskOrder` that decoding a well-formed record yields. -/
def askOrderOfRecord (key : String) (r : AskRecord) : CreditAskOrder :=
  { order_id := key
    lender_address := r.lender
    terms := { principal := (r.principal : ℚ) / 10 ^ 18
               interest_rate := (r.interest_rate : ℚ) / 100
               duration_days := r.duration
               collateral_required := r.collateral_required
               collateral_amount := some ((r.collateral_amount.getD 0 : ℚ) / 10 ^ 18)
               grace_period_days := 0
               late_fee_percentage := 0 }
    expiry_block := r.expiry
    status := r.status
    created_block := r.created_block
    filled_amount := (r.filled_amount.getD 0 : ℚ) / 10 ^ 18 }

/-- A second well-formed ask-order record, with a different lender and
status, for mixed-storage scenarios. -/
def sampleAskRecord : AskRecord :=
  { lender := "alice", principal := 1000 * 10 ^ 18, interest_rate := 500,
    duration := 90, collateral_required := false, expiry := 14500,
    status := .active, created_block := 100 }

/-- Another well-formed ask-order record (lender "bob", status filled). -/
def sampleAskRecordB : AskRecord :=
  { lender := "bob", principal := 5 * 10 ^ 18, interest_rate := 250,
    duration := 30, collateral_required := false, expiry := 15000,
    status := .filled, created_block := 120 }

/-- A malformed `AskOrders` storage value: every field present but the
status string "bogus" is not an `OrderStatus` member, so decoding raises
`ValueError("bogus")`. -/
def malformedAskValue : RawAskValue :=
  { lender := some "carol", principal := some (10 ^ 18), interest_rate := some 500,
    duration := some 30, collateral_required := some false, expiry := some 100,
    status := some "bogus", created_block := some 7 }

/-- A concrete substrate oracle: every address validates, the account
storage is empty, fee payment info is falsy, and every submission raises
`SubstrateRequestException("connection refused")` (the node cannot be
reached). -/
def baselineEnv : ClientEnv :=
  { validateAddress := fun _ => true
    accountQuery := fun _ => .ok none
    feePaymentInfo := .ok none
    submitOutcome := fun _ => .raises (.substrateRequestException "connection refused")
    events := []
    receiptPaymentInfo := none
    blockTimestamp := 0 }

/-- A substrate oracle whose submissions are included but rejected by the
chain with `error_message = "InsufficientFunds"`. -/
def rejectedEnv : ClientEnv :=
  { baselineEnv with
    submitOutcome := fun _ => .included "0xabc" "0xblock" 50 false "InsufficientFunds" }

/-- A substrate oracle whose fee payment info is a truthy dictionary that
lacks the `partialFee` key. -/
def feeMissingEnv : ClientEnv :=
  { baselineEnv with feePaymentInfo := .ok (some [("weight", 5)]) }

/-- A concrete SDK keypair. -/
def sampleKeypair : SDKKeypair :=
  { mnemonic := "", private_key := [1], public_key := [2],
    address := "5Alice", ss58_format := 42 }

/-- Concrete loan terms (1000 CTC principal, 5 percent, 90 days). -/
def sampleTerms : LoanTerms :=
  { principal := 1000, interest_rate := 5, duration_days := 90,
    collateral_required := false }

/-- The fee-query outcomes in which `get_transfer_fee_estimate` has no
`partialFee` to report: the query raised, the payment info is `None`, or
the dictionary lacks the key (an empty dictionary lacks it too). -/
def feeUnavailable (resp : Except PyExc (Option (List (String × ℤ)))) : Prop :=
  match resp with
  | .error _ => True
  | .ok none => True
  | .ok (some l) => List.lookup "partialFee" l = none

/-- Monad-bind on an `Except.ok`, unfolded. -/
theorem except_bind_ok (a : α) (f : α → Except ε β) :
    (Except.ok a : Except ε α) >>= f = f a := rfl

/-- Monad-bind on an `Except.error` short-circuits. -/
theorem except_bind_error (e : ε) (f : α → Except ε β) :
    (Except.error e : Except ε α) >>= f = Except.error e := rfl

/-- Python truncation on a non-negative number is the floor. -/
theorem pyInt_of_nonneg {q : ℚ} (h : 0 ≤ q) : pyInt q = ⌊q⌋ := if_pos h

/-- Python truncation is the identity on integers. -/
theorem pyInt_intCast (n : ℤ) : pyInt ((n : ℚ)) = n := by
  unfold pyInt
  split
  · exact Int.floor_intCast n
  · rw [← Int.cast_neg, Int.floor_intCast]; ring

/-- Python truncation of a rational with denominator 1 is its numerator. -/
theorem pyInt_den_one {q : ℚ} (h : q.den = 1) : pyInt q = q.num := by
  conv_lhs => rw [← (Rat.den_eq_one_iff q).mp h]
  exact pyInt_intCast q.num

/-- Decoding a well-formed ask-order entry succeeds with the expected
order. -/
theorem decodeAskOrder_encode (key : String) (r : AskRecord) :
    decodeAskOrder key (encodeAskRecord r) = .ok (askOrderOfRecord key r) := by
  rcases r with ⟨l, p, ir, d, cr, ca, ex, st, cb, fa⟩
  cases st <;> rfl

/-- On a listing of well-formed entries the enumeration loop returns the
decoded orders restricted to the filter predicate. -/
theorem askOrdersLoop_encode (la : Option String) (st : Option OrderStatus)
    (recs : List (String × AskRecord)) :
    askOrdersLoop la st (recs.map (fun p => (p.1, encodeAskRecord p.2))) =
      .ok ((recs.map (fun p => askOrderOfRecord p.1 p.2)).filter (keepAskOrder la st)) := by
  induction recs with
  | nil => rfl
  | cons hd tl ih =>
    obtain ⟨k, r⟩ := hd
    simp only [List.map_cons, askOrdersLoop, decodeAskOrder_encode, except_bind_ok, ih,
      List.filter_cons]
    split <;> rfl

/-- `OrderStatus(s)` either succeeds or raises `ValueError(s)`. -/
theorem parseOrderStatus_cases (s : String) :
    (∃ os, parseOrderStatus s = .ok os) ∨ parseOrderStatus s = .error (.valueError s) := by
  unfold parseOrderStatus
  split
  · exact Or.inl ⟨_, rfl⟩
  · split
    · exact Or.inl ⟨_, rfl⟩
    · split
      · exact Or.inl ⟨_, rfl⟩
      · split
        · exact Or.inl ⟨_, rfl⟩
        · exact Or.inr rfl

/-- Decoding an ask-order entry can only fail with `KeyError` (missing
field) or `ValueError` (invalid status string) — in particular never with
a `SubstrateRequestException`, so the read path's handler does not
intercept decode failures. -/
theorem decodeAskOrder_error_shape (k : String) (v : RawAskValue) (e : PyExc)
    (h : decodeAskOrder k v = .error e) :
    (∃ s, e = PyExc.keyError s) ∨ (∃ s, e = PyExc.valueError s) := by
  rcases v with ⟨l, p, ir, d, cr, ca, ex, st, cb, fa⟩
  rcases l with _ | l <;> rcases p with _ | p <;> rcases ir with _ | ir <;>
    rcases d with _ | d <;> rcases cr with _ | cr <;> rcases ex with _ | ex <;>
    rcases st with _ | st <;> rcases cb with _ | cb <;>
    simp only [decodeAskOrder, dictGet, except_bind_ok, except_bind_error,
      bind, Except.bind] at h
  all_goals try (cases h; exact Or.inl ⟨_, rfl⟩)
  all_goals
    rcases parseOrderStatus_cases st with ⟨os, hos⟩ | hos <;> rw [hos] at h <;>
      simp only [except_bind_ok, except_bind_error, bind, Except.bind, pure,
        Except.pure] at h
  all_goals first
    | exact Except.noConfusion h
    | (cases h; exact Or.inl ⟨_, rfl⟩)
    | (cases h; exact Or.inr ⟨_, rfl⟩)

/-- With no filters every decoded order is kept. -/
theorem keepAskOrder_none_none : keepAskOrder none none = fun _ => true := rfl

/-- A decode failure anywhere in the enumeration aborts the whole loop
with that exception, discarding all previously decoded orders. -/
theorem askOrdersLoop_abort (la : Option String) (st : Option OrderStatus)
    (pre : List (String × AskRecord)) (k : String) (v : RawAskValue) (e : PyExc)
    (post : List (String × RawAskValue)) (h : decodeAskOrder k v = .error e) :
    askOrdersLoop la st ((pre.map (fun p => (p.1, encodeAskRecord p.2))) ++ (k, v) :: post) =
      .error e := by
  induction pre with
  | nil =>
    simp only [List.map_nil, List.nil_append, askOrdersLoop, h, bind, Except.bind]
  | cons hd tl ih =>
    obtain ⟨k', r⟩ := hd
    simp only [List.map_cons, List.cons_append, askOrdersLoop, decodeAskOrder_encode,
      except_bind_ok, List.append_eq, ih, except_bind_error]

/-- Claim C1 counterexample: a storage enumeration with one valid entry
(N = 1) and one malformed entry (M = 1, status "bogus") does not yield the
one decoded order — `get_ask_orders` raises the `ValueError` from the
malformed entry, aborting the whole listing. -/
theorem c1_counterexample :
    get_ask_orders (.ok [("1", encodeAskRecord sampleAskRecord), ("2", malformedAskValue)])
      none none = .error (.valueError "bogus") := rfl

/-- Claim C1 (amended): `get_ask_orders` is all-or-nothing, not
skip-per-entry.  (1) When every entry decodes (M = 0) it returns exactly
the N decoded orders.  (2) When any entry is malformed, the `KeyError` /
`ValueError` of the first malformed entry propagates and aborts the whole
listing — malformed entries are not skipped individually. -/
theorem c1_amended_get_ask_orders :
    (∀ recs : List (String × AskRecord),
      get_ask_orders (.ok (recs.map (fun p => (p.1, encodeAskRecord p.2)))) none none =
        .ok (recs.map (fun p => askOrderOfRecord p.1 p.2))) ∧
    (∀ (pre : List (String × AskRecord)) (k : String) (v : RawAskValue) (e : PyExc)
        (post : List (String × RawAskValue)), decodeAskOrder k v = .error e →
      get_ask_orders (.ok ((pre.map (fun p => (p.1, encodeAskRecord p.2))) ++ (k, v) :: post))
        none none = .error e) := by
  constructor
  · intro recs
    show catchSubstrateEmpty (askOrdersLoop none none
      (recs.map (fun p => (p.1, encodeAskRecord p.2)))) = _
    rw [askOrdersLoop_encode, keepAskOrder_none_none, List.filter_true]
    rfl
  · intro pre k v e post h
    have hsh := decodeAskOrder_error_shape k v e h
    show catchSubstrateEmpty (askOrdersLoop none none _) = _
    rw [askOrdersLoop_abort none none pre k v e post h]
    rcases hsh with ⟨s, rfl⟩ | ⟨s, rfl⟩ <;> rfl

/-- Claim C1 witness: the abort branch of the amended theorem at one valid
entry followed by the concrete malformed entry. -/
theorem c1_witness :
    decodeAskOrder "2" malformedAskValue = .error (.valueError "bogus") ∧
    get_ask_orders (.ok (([("1", sampleAskRecord)].map (fun p => (p.1, encodeAskRecord p.2))) ++
      ("2", malformedAskValue) :: [])) none none = .error (.valueError "bogus") :=
  ⟨rfl, c1_amended_get_ask_orders.2 [("1", sampleAskRecord)] "2" malformedAskValue
    (.valueError "bogus") [] rfl⟩

/-- Claim C2 counterexample: when the storage enumeration itself raises a
`SubstrateRequestException`, none of the three read operations raises a
`NetworkError` — each catches the exception and returns the empty list. -/
theorem c2_counterexample :
    get_ask_orders (.error (.substrateRequestException "connection error")) none none = .ok [] ∧
    get_bid_orders (.error (.substrateRequestException "connection error")) none none = .ok [] ∧
    get_credit_deals (.error (.substrateRequestException "connection error")) none none = .ok [] :=
  ⟨rfl, rfl, rfl⟩

/-- Claim C2 (amended): for every enumeration failure and every filter
combination, `get_ask_orders`, `get_bid_orders` and `get_credit_deals`
swallow the `SubstrateRequestException` (logging it) and return the empty
list; no `NetworkError` is raised. -/
theorem c2_amended_enumeration_failure (msg : String) (la ba pa : Option String)
    (st : Option OrderStatus) (ds : Option DealStatus) :
    get_ask_orders (.error (.substrateRequestException msg)) la st = .ok [] ∧
    get_bid_orders (.error (.substrateRequestException msg)) ba st = .ok [] ∧
    get_credit_deals (.error (.substrateRequestException msg)) pa ds = .ok [] :=
  ⟨rfl, rfl, rfl⟩

/-- Claim C3 counterexample: a network-layer failure (the submission raises
`SubstrateRequestException`) makes `create_ask_order` raise a
`TransactionError`, not a `NetworkError`. -/
theorem c3_counterexample :
    create_ask_order baselineEnv sampleKeypair sampleTerms 14400 =
      .error (.transactionError "Ask order creation failed: connection refused") := rfl

/-- Claim C3 (amended): every write operation raises `TransactionError`
carrying the reported message in both failure modes — when the chain
rejects the call (`is_success` false with `error_message`) and when the
network layer fails (`SubstrateRequestException`).  `NetworkError` is
never used on the write path. -/
theorem c3_amended_write_failures (env : ClientEnv) (kp : SDKKeypair) (terms : LoanTerms)
    (expiry : ℤ) (oid did : String) (ot : OrderType) (amt : ℚ) (msg : String) :
    ((∀ call, env.submitOutcome call = .raises (.substrateRequestException msg)) →
      create_ask_order env kp terms expiry =
        .error (.transactionError ("Ask order creation failed: " ++ msg)) ∧
      create_bid_order env kp terms expiry =
        .error (.transactionError ("Bid order creation failed: " ++ msg)) ∧
      accept_offer env kp oid ot =
        .error (.transactionError ("Offer acceptance failed: " ++ msg)) ∧
      repay_loan env kp did amt =
        .error (.transactionError ("Loan repayment failed: " ++ msg))) ∧
    (∀ (exh bh : String) (bn : ℤ),
      (∀ call, env.submitOutcome call = .included exh bh bn false msg) →
      create_ask_order env kp terms expiry =
        .error (.transactionError ("Ask order creation failed: " ++ msg)) ∧
      create_bid_order env kp terms expiry =
        .error (.transactionError ("Bid order creation failed: " ++ msg)) ∧
      accept_offer env kp oid ot =
        .error (.transactionError ("Offer acceptance failed: " ++ msg)) ∧
      repay_loan env kp did amt =
        .error (.transactionError ("Loan repayment failed: " ++ msg))) := by
  constructor
  · intro hsub
    refine ⟨?_, ?_, ?_, ?_⟩ <;>
      simp [create_ask_order, create_bid_order, accept_offer, repay_loan,
        runWriteCall, hsub]
  · intro exh bh bn hsub
    refine ⟨?_, ?_, ?_, ?_⟩ <;>
      simp [create_ask_order, create_bid_order, accept_offer, repay_loan,
        runWriteCall, hsub]

/-- Claim C3 witness: both failure modes of the amended theorem at concrete
oracles — a network failure and a chain rejection — for all four write
operations. -/
theorem c3_witness :
    (create_ask_order baselineEnv sampleKeypair sampleTerms 14400 =
        .error (.transactionError ("Ask order creation failed: " ++ "connection refused")) ∧
      create_bid_order baselineEnv sampleKeypair sampleTerms 14400 =
        .error (.transactionError ("Bid order creation failed: " ++ "connection refused")) ∧
      accept_offer baselineEnv sampleKeypair "order-1" .ask =
        .error (.transactionError ("Offer acceptance failed: " ++ "connection refused")) ∧
      repay_loan baselineEnv sampleKeypair "deal-1" 5 =
        .error (.transactionError ("Loan repayment failed: " ++ "connection refused"))) ∧
    (create_ask_order rejectedEnv sampleKeypair sampleTerms 14400 =
        .error (.transactionError ("Ask order creation failed: " ++ "InsufficientFunds")) ∧
      create_bid_order rejectedEnv sampleKeypair sampleTerms 14400 =
        .error (.transactionError ("Bid order creation failed: " ++ "InsufficientFunds")) ∧
      accept_offer rejectedEnv sampleKeypair "order-1" .ask =
        .error (.transactionError ("Offer acceptance failed: " ++ "InsufficientFunds")) ∧
      repay_loan rejectedEnv sampleKeypair "deal-1" 5 =
        .error (.transactionError ("Loan repayment failed: " ++ "InsufficientFunds"))) :=
  ⟨(c3_amended_write_failures baselineEnv sampleKeypair sampleTerms 14400 "order-1" "deal-1"
      .ask 5 "connection refused").1 (fun _ => rfl),
   (c3_amended_write_failures rejectedEnv sampleKeypair sampleTerms 14400 "order-1" "deal-1"
      .ask 5 "InsufficientFunds").2 "0xabc" "0xblock" 50 (fun _ => rfl)⟩

/-- Claim C4: whenever the destination validates, the balance query
succeeds, and the available balance is below `amount + fee_estimate`,
`transfer` raises `InsufficientBalanceError` (carrying those quantities)
and the sign-and-submit block is never reached (submission count 0), so
no chain state is touched. -/
theorem c4_transfer_insufficient_balance (env : ClientEnv) (kp : SDKKeypair)
    (to_address : String) (amount : ℚ) (bal : TokenBalance)
    (hdest : env.validateAddress to_address = true)
    (hbal : get_balance env kp.address = .ok bal)
    (hlt : bal.balance < amount + get_transfer_fee_estimate env kp.address to_address amount) :
    transfer env kp to_address amount =
      (.error (.insufficientBalanceError bal.balance amount
        (get_transfer_fee_estimate env kp.address to_address amount)), 0) := by
  simp [transfer, hdest, hbal, hlt]

/-- Claim C4 witness: with an empty account (balance 0) and amount 5, the
gate fires and no submission occurs. -/
theorem c4_witness :
    baselineEnv.validateAddress "5Bob" = true ∧
    get_balance baselineEnv sampleKeypair.address =
      .ok { symbol := "CTC", balance := 0, locked := 0, reserved := 0,
            total := 0, decimals := 18 } ∧
    ((0 : ℚ) < 5 + get_transfer_fee_estimate baselineEnv sampleKeypair.address "5Bob" 5) ∧
    transfer baselineEnv sampleKeypair "5Bob" 5 =
      (.error (.insufficientBalanceError 0 5
        (get_transfer_fee_estimate baselineEnv sampleKeypair.address "5Bob" 5)), 0) :=
  ⟨rfl, rfl, by show (0 : ℚ) < 5 + 1 / 100; norm_num,
   c4_transfer_insufficient_balance baselineEnv sampleKeypair "5Bob" 5
     { symbol := "CTC", balance := 0, locked := 0, reserved := 0, total := 0, decimals := 18 }
     rfl rfl (by show (0 : ℚ) < 5 + 1 / 100; norm_num)⟩

/-- Claim C5 counterexample: the code's `to_wire` is `int(a * 10**18)`
(truncation toward zero), not `round(a * 10**18)`: at
`a = 15 * 10^-19` (19 fractional digits) the code yields 1 while the
claimed `round` definition yields 2. -/
theorem c5_counterexample :
    to_raw_amount (15 / 10 ^ 19) 18 = 1 ∧ round ((15 / 10 ^ 19 : ℚ) * 10 ^ 18) = 2 := by
  constructor
  · unfold to_raw_amount pyInt
    norm_num
  · rw [round_eq]
    norm_num

/-- Claim C5 (amended): `to_wire` is `int(a * 10^18)` (truncation toward
zero) rather than `round`; nevertheless for every non-negative `a` the
claimed round-trip properties hold: exact recovery when `a` has at most 18
fractional digits (`a * 10^18` is an integer), and error at most `10^-18`
in general. -/
theorem c5_amended_amount_roundtrip (a : ℚ) (h0 : 0 ≤ a) :
    ((a * 10 ^ 18).den = 1 → format_amount (to_raw_amount a 18) 18 = a) ∧
    |format_amount (to_raw_amount a 18) 18 - a| ≤ 1 / 10 ^ 18 := by
  have hE : (0 : ℚ) < 10 ^ 18 := by positivity
  have hq0 : 0 ≤ a * 10 ^ 18 := by positivity
  have hraw : to_raw_amount a 18 = ⌊a * 10 ^ 18⌋ := pyInt_of_nonneg hq0
  constructor
  · intro hden
    have hnum : ((a * 10 ^ 18).num : ℚ) = a * 10 ^ 18 := (Rat.den_eq_one_iff _).mp hden
    have hfl : to_raw_amount a 18 = (a * 10 ^ 18).num := by
      rw [hraw]
      conv_lhs => rw [← hnum]
      exact Int.floor_intCast _
    unfold format_amount
    rw [hfl, hnum]
    field_simp
  · have h1 : ((⌊a * 10 ^ 18⌋ : ℚ)) ≤ a * 10 ^ 18 := Int.floor_le _
    have h2 : a * 10 ^ 18 < (⌊a * 10 ^ 18⌋ : ℚ) + 1 := Int.lt_floor_add_one _
    have key : format_amount (to_raw_amount a 18) 18 - a
        = ((⌊a * 10 ^ 18⌋ : ℚ) - a * 10 ^ 18) / 10 ^ 18 := by
      unfold format_amount
      rw [hraw]
      field_simp
      ring
    rw [key, abs_div, abs_of_pos hE]
    gcongr
    rw [abs_le]
    constructor <;> linarith

/-- Claim C5 witness: the amount 3 (at most 18 fractional digits)
round-trips exactly through the wire encoding. -/
theorem c5_witness :
    (0 : ℚ) ≤ 3 ∧ ((3 : ℚ) * 10 ^ 18).den = 1 ∧
    format_amount (to_raw_amount 3 18) 18 = 3 := by
  have hc : ((3 : ℚ) * 10 ^ 18) = ((3 * 10 ^ 18 : ℤ) : ℚ) := by push_cast; ring
  have hden : ((3 : ℚ) * 10 ^ 18).den = 1 := by rw [hc]; exact Rat.den_intCast _
  exact ⟨by norm_num, hden, (c5_amended_amount_roundtrip 3 (by norm_num)).1 hden⟩

/-- Claim C6 counterexample: the code's rate conversion is
`int(rate * 100)` (truncation), not `round(rate * 100)`: at rate 5.675 the
code yields 567 basis points while `round` yields 568. -/
theorem c6_counterexample :
    rate_to_basis_points (5675 / 1000) = 567 ∧ round ((5675 / 1000 : ℚ) * 100) = 568 := by
  constructor
  · unfold rate_to_basis_points pyInt
    norm_num
  · rw [round_eq]
    norm_num

/-- Claim C6 (amended): `rate_to_basis_points` is `int(r * 100)`
(truncation toward zero), which coincides with `round(r * 100)` exactly
when `r * 100` is an integer (the rate is expressible to 2 decimal places
of percentage); for every such rate the round-trip through
`basis_points_to_rate` is exact. -/
theorem c6_amended_rate_roundtrip (r : ℚ) (h : (r * 100).den = 1) :
    rate_to_basis_points r = round (r * 100) ∧
    basis_points_to_rate (rate_to_basis_points r) = r := by
  have hnum : ((r * 100).num : ℚ) = r * 100 := (Rat.den_eq_one_iff _).mp h
  have hbp : rate_to_basis_points r = (r * 100).num := pyInt_den_one h
  constructor
  · rw [hbp]
    conv_rhs => rw [← hnum]
    rw [round_intCast]
  · unfold basis_points_to_rate
    rw [hbp, hnum]
    field_simp

/-- Claim C6 witness: the rate 12.34 percent (2 decimal places) converts
to basis points as `round` would and round-trips exactly. -/
theorem c6_witness :
    ((1234 / 100 : ℚ) * 100).den = 1 ∧
    (rate_to_basis_points (1234 / 100) = round ((1234 / 100 : ℚ) * 100) ∧
      basis_points_to_rate (rate_to_basis_points (1234 / 100)) = 1234 / 100) := by
  have hc : ((1234 / 100 : ℚ) * 100) = ((1234 : ℤ) : ℚ) := by push_cast; ring
  have hden : ((1234 / 100 : ℚ) * 100).den = 1 := by rw [hc]; exact Rat.den_intCast _
  exact ⟨hden, c6_amended_rate_roundtrip (1234 / 100) hden⟩

/-- Claim C7 counterexample: `to_raw_amount` performs no sign validation —
on the negative amount -1 it returns the negative integer `-(10^18)`
instead of failing (no `InvalidAmountError` class exists anywhere in the
SDK's exception taxonomy, see `PyExc`). -/
theorem c7_counterexample :
    to_raw_amount (-1) 18 = -(10 ^ 18) ∧ to_raw_amount (-1) 18 < 0 := by
  constructor
  · unfold to_raw_amount pyInt
    norm_num
  · unfold to_raw_amount pyInt
    norm_num

/-- Claim C7 (amended): for every negative amount the wire conversion
silently returns the truncation toward zero of `a * 10^18`: a non-positive
integer, strictly negative whenever `a ≤ -10^-18`.  No error of any kind
is raised (`to_raw_amount` is total). -/
theorem c7_amended_negative_amount (a : ℚ) (h : a < 0) :
    to_raw_amount a 18 ≤ 0 ∧ (a ≤ -(1 / 10 ^ 18) → to_raw_amount a 18 < 0) := by
  have hE : (0 : ℚ) < 10 ^ 18 := by positivity
  have hq : a * 10 ^ 18 < 0 := mul_neg_of_neg_of_pos h hE
  have hni : ¬ (0 ≤ a * 10 ^ 18) := not_le.mpr hq
  have hne : to_raw_amount a 18 = -⌊-(a * 10 ^ 18)⌋ := if_neg hni
  constructor
  · rw [hne, neg_nonpos]
    apply Int.floor_nonneg.mpr
    linarith
  · intro hle
    have hm : a * 10 ^ 18 ≤ -(1 / 10 ^ 18) * 10 ^ 18 := mul_le_mul_of_nonneg_right hle hE.le
    have hm1 : (-(1 / 10 ^ 18 : ℚ)) * 10 ^ 18 = -1 := by field_simp
    rw [hne, neg_lt_zero]
    apply Int.floor_pos.mpr
    linarith

/-- Claim C7 witness: the amended theorem at the concrete negative amount
-2. -/
theorem c7_witness :
    (-2 : ℚ) < 0 ∧ (to_raw_amount (-2) 18 ≤ 0 ∧
      ((-2 : ℚ) ≤ -(1 / 10 ^ 18) → to_raw_amount (-2) 18 < 0)) :=
  ⟨by norm_num, c7_amended_negative_amount (-2) (by norm_num)⟩

/-- Claim C8 counterexample: Python truthiness makes the empty string a
no-op filter — `get_ask_orders` called with `lender_address = ""` and
`status = Active` returns the order whose lender is "alice", which does
not satisfy the address equality filter. -/
theorem c8_counterexample :
    get_ask_orders (.ok [("1", encodeAskRecord sampleAskRecord)]) (some "") (some .active) =
      .ok [askOrderOfRecord "1" sampleAskRecord] ∧
    (askOrderOfRecord "1" sampleAskRecord).lender_address = "alice" ∧
    ("alice" : String) ≠ "" :=
  ⟨rfl, rfl, by decide⟩

/-- Claim C8 (amended): for any mixture of well-formed entries, a status
filter alone returns exactly the decoded orders whose status equals the
filter value; and when the lender-address filter is a non-empty string
both equality filters are applied, every returned order satisfying both.
(A falsy — empty-string — address filter is treated as absent.) -/
theorem c8_amended_filters :
    (∀ (recs : List (String × AskRecord)) (st : OrderStatus),
      get_ask_orders (.ok (recs.map (fun p => (p.1, encodeAskRecord p.2)))) none (some st) =
        .ok ((recs.map (fun p => askOrderOfRecord p.1 p.2)).filter
          (fun o => o.status == st))) ∧
    (∀ (recs : List (String × AskRecord)) (la : String) (st : OrderStatus), la ≠ "" →
      get_ask_orders (.ok (recs.map (fun p => (p.1, encodeAskRecord p.2)))) (some la) (some st) =
        .ok ((recs.map (fun p => askOrderOfRecord p.1 p.2)).filter
          (fun o => o.lender_address == la && o.status == st))) := by
  constructor
  · intro recs st
    have hk : keepAskOrder none (some st) = fun o => o.status == st := by
      funext o
      simp [keepAskOrder]
    show catchSubstrateEmpty (askOrdersLoop none (some st) _) = _
    rw [askOrdersLoop_encode, hk]
    rfl
  · intro recs la st hla
    have h0 : (la == "") = false := beq_eq_false_iff_ne.mpr hla
    have hk : keepAskOrder (some la) (some st) =
        fun o => o.lender_address == la && o.status == st := by
      funext o
      simp only [keepAskOrder, h0, Bool.false_or]
    show catchSubstrateEmpty (askOrdersLoop (some la) (some st) _) = _
    rw [askOrdersLoop_encode, hk]
    rfl

/-- Claim C8 witness: the two-filter branch of the amended theorem on a
storage mixing an active "alice" order with a filled "bob" order. -/
theorem c8_witness :
    ("alice" : String) ≠ "" ∧
    get_ask_orders (.ok ([("1", sampleAskRecord), ("2", sampleAskRecordB)].map
        (fun p => (p.1, encodeAskRecord p.2)))) (some "alice") (some .active) =
      .ok (([("1", sampleAskRecord), ("2", sampleAskRecordB)].map
        (fun p => askOrderOfRecord p.1 p.2)).filter
          (fun o => o.lender_address == "alice" && o.status == OrderStatus.active)) :=
  ⟨by decide, c8_amended_filters.2 [("1", sampleAskRecord), ("2", sampleAskRecordB)]
    "alice" .active (by decide)⟩

/-- Claim C9: for a validating address whose `System.Account` query comes
back empty, `get_balance` raises nothing and returns the `TokenBalance`
with symbol "CTC", decimals 18 and every amount zero. -/
theorem c9_get_balance_absent_account (env : ClientEnv) (address : String)
    (hv : env.validateAddress address = true)
    (hq : env.accountQuery address = .ok none) :
    get_balance env address =
      .ok { symbol := "CTC", balance := 0, locked := 0, reserved := 0,
            total := 0, decimals := 18 } := by
  simp [get_balance, hv, hq]

/-- Claim C9 witness: the zeroed balance at the concrete oracle with empty
account storage. -/
theorem c9_witness :
    baselineEnv.validateAddress "5Alice" = true ∧
    baselineEnv.accountQuery "5Alice" = .ok none ∧
    get_balance baselineEnv "5Alice" =
      .ok { symbol := "CTC", balance := 0, locked := 0, reserved := 0,
            total := 0, decimals := 18 } :=
  ⟨rfl, rfl, c9_get_balance_absent_account baselineEnv "5Alice" rfl rfl⟩

/-- Claim C10: `get_transfer_fee_estimate` is total over its error cases —
whenever the fee query fails or the payment info lacks a `partialFee`
field (`feeUnavailable`), it returns the fixed fallback 0.01 (the
catch-all `except Exception` handler means no exception reaches the
caller, reflected in the non-fallible return type). -/
theorem c10_fee_estimate_fallback (env : ClientEnv) (from_address to_address : String)
    (amount : ℚ) (h : feeUnavailable env.feePaymentInfo) :
    get_transfer_fee_estimate env from_address to_address amount = 1 / 100 := by
  unfold get_transfer_fee_estimate
  unfold feeUnavailable at h
  rcases henv : env.feePaymentInfo with e | (_ | l)
  · rfl
  · rfl
  · rw [henv] at h
    by_cases hl : l.isEmpty <;> simp [hl, h]

/-- Claim C10 witness: a truthy payment-info dictionary lacking the
`partialFee` key yields the fallback 0.01. -/
theorem c10_witness :
    feeUnavailable feeMissingEnv.feePaymentInfo ∧
    get_transfer_fee_estimate feeMissingEnv "5Alice" "5Bob" 5 = 1 / 100 :=
  ⟨by exact rfl, c10_fee_estimate_fallback feeMissingEnv "5Alice" "5Bob" 5 (by exact rfl)⟩
